import Mathlib

/-!
Shallow embedding of the 1337x scraper (src/main.rs) and verification of the
frozen specification claims.  Strings are modelled by Lean `String` values,
with all primitive string operations re-implemented over `List Char` by
structural recursion so that every definition evaluates inside the kernel.
Rust `u64`/`usize` arithmetic is modelled on `Nat` with explicit reduction
modulo `2 ^ 64` where the release-mode wrap-around semantics matters.
-/

set_option maxRecDepth 8192

namespace Scraper

/-! ## String primitives (models of the Rust `str` operations used) -/

/-- Model of Rust str::trim.  Rust trims Unicode whitespace; the inputs this
program feeds to trim are ASCII, so the ASCII whitespace set of
`Char.isWhitespace` is the faithful restriction. -/
def chTrim (cs : List Char) : List Char :=
  ((cs.dropWhile Char.isWhitespace).reverse.dropWhile Char.isWhitespace).reverse

/-- String wrapper for `chTrim`. -/
def sTrim (s : String) : String := ⟨chTrim s.data⟩

/-- Model of Rust str::split on a single separator character: empty pieces are
kept, and the empty string yields one empty piece. -/
def chSplit (sep : Char) : List Char → List (List Char)
  | [] => [[]]
  | c :: cs =>
    if c = sep then [] :: chSplit sep cs
    else
      match chSplit sep cs with
      | [] => [[c]]
      | g :: gs => (c :: g) :: gs

/-- String wrapper for `chSplit`. -/
def sSplit (sep : Char) (s : String) : List String := (chSplit sep s.data).map String.mk

/-- Model of Rust str::replace(c, "") — removes every occurrence of `c`. -/
def sRemoveAll (c : Char) (s : String) : String := ⟨s.data.filter (fun d => d ≠ c)⟩

/-- Model of Rust str::trim_end_matches(c) — removes every trailing `c`. -/
def sDropTrailing (c : Char) (s : String) : String :=
  ⟨(s.data.reverse.dropWhile (fun d => d = c)).reverse⟩

/-- Model of Rust str::starts_with for string patterns. -/
def sStartsWith (s pat : String) : Bool := pat.data.isPrefixOf s.data

/-- Model of Rust str::ends_with for string patterns. -/
def sEndsWith (s pat : String) : Bool := pat.data.reverse.isPrefixOf s.data.reverse

/-- Substring occurrence over char lists. -/
def chIsInfix (pat : List Char) : List Char → Bool
  | [] => pat.isEmpty
  | c :: cs => pat.isPrefixOf (c :: cs) || chIsInfix pat cs

/-- Model of Rust str::contains for string patterns. -/
def sContains (s pat : String) : Bool := chIsInfix pat.data s.data

/-- Drop the last `n` characters (model of three Rust String::pop calls). -/
def sDropRight (n : Nat) (s : String) : String := ⟨(s.data.reverse.drop n).reverse⟩

/-- Concatenation of a list of strings (Rust join("")). -/
def sConcat (l : List String) : String := ⟨(l.map String.data).flatten⟩

/-- Join with a separator character (Rust join("\n")). -/
def sJoinNL (l : List String) : String :=
  match l with
  | [] => ""
  | [a] => a
  | a :: rest => a ++ "\n" ++ sJoinNL rest

/-- Model of Rust str::lines: split on the newline character, drop a final empty
piece produced by a trailing newline, and strip one trailing carriage return
from each line. -/
def rustLines (s : String) : List String :=
  if s.data = [] then []
  else
    let ps := chSplit '\n' s.data
    let ps := if ps.getLastD ['x'] = [] then ps.dropLast else ps
    ps.map (fun l => ⟨(l.reverse.dropWhile (fun d => d = '\r')).reverse⟩)

/-! ## Machine-integer model -/

/-- The u64 modulus, 2 ^ 64 as a literal. -/
def W64 : Nat := 18446744073709551616

/-- Wrapping u64 multiplication (release-mode Rust semantics). -/
def u64mul (a b : Nat) : Nat := a * b % W64

/-- Wrapping u64 subtraction (release-mode Rust semantics). -/
def u64sub (a b : Nat) : Nat := (a % W64 + (W64 - b % W64)) % W64

/-- Numeric value of a digit list. -/
def digitsVal (cs : List Char) : Nat := cs.foldl (fun a c => a * 10 + (c.toNat - 48)) 0

/-- Model of Rust u64::from_str (also usize on a 64-bit target): an optional
leading plus sign, then one or more ASCII digits; overflow is rejected. -/
def parseU64 (s : String) : Option Nat :=
  let cs := match s.data with
    | '+' :: r => r
    | r => r
  if cs ≠ [] ∧ cs.all Char.isDigit then
    if digitsVal cs < W64 then some (digitsVal cs) else none
  else none

/-! ## parse_time_offset (src/main.rs lines 104–137) -/

/-- Embedding of `parse_time_offset`: turns "1 year ago" into `now` minus the
offset, with u64 wrap-around arithmetic. -/
def parse_time_offset (now : Nat) (value : String) : Option Nat :=
  if sTrim value = "" then none
  else
    let parts := sSplit ' ' (sTrim value)
    if parts.length ≠ 3 then none
    else
      match parseU64 (parts.getD 0 "") with
      | none => none
      | some number =>
        if parts.getD 2 "" ≠ "ago" then none
        else
          match sDropTrailing 's' (parts.getD 1 "") with
          | "second" => some (u64sub now number)
          | "minute" => some (u64sub now (u64mul number 60))
          | "hour" => some (u64sub now (u64mul (u64mul number 60) 60))
          | "day" => some (u64sub now (u64mul number 86400))
          | "week" => some (u64sub now (u64mul (u64mul number 86400) 7))
          | "month" => some (u64sub now (u64mul (u64mul number 86400) 30))
          | "year" => some (u64sub now (u64mul (u64mul number 86400) 365))
          | "decade" => some (u64sub now (u64mul (u64mul (u64mul number 86400) 365) 10))
          | _ => none

/-- The claim's unit table: factor for a unit name. -/
def unitFactor (u : String) : Option Nat :=
  match u with
  | "second" => some 1
  | "minute" => some 60
  | "hour" => some 3600
  | "day" => some 86400
  | "week" => some (7 * 86400)
  | "month" => some (30 * 86400)
  | "year" => some (365 * 86400)
  | "decade" => some (3650 * 86400)
  | _ => none

/-- Strip at most one trailing 's' (the claim's wording for unit matching). -/
def sDropOneTrailing (c : Char) (s : String) : String :=
  match s.data.reverse with
  | d :: r => if d = c then ⟨r.reverse⟩ else s
  | [] => s

/-- Claim C1 as stated: three space-separated tokens, unit matched after
stripping ONE trailing 's', result now − count·factor (u64 arithmetic). -/
def parseRelTimeClaim (now : Nat) (value : String) : Option Nat :=
  match sSplit ' ' (sTrim value) with
  | [n, u, a] =>
    if a = "ago" then
      match parseU64 n, unitFactor (sDropOneTrailing 's' u) with
      | some num, some f => some (u64sub now (u64mul num f))
      | _, _ => none
    else none
  | _ => none

/-- Claim C1 amended: identical except the unit is matched after stripping ALL
trailing 's' characters, as Rust trim_end_matches does. -/
def parseRelTimeAmended (now : Nat) (value : String) : Option Nat :=
  match sSplit ' ' (sTrim value) with
  | [n, u, a] =>
    if a = "ago" then
      match parseU64 n, unitFactor (sDropTrailing 's' u) with
      | some num, some f => some (u64sub now (u64mul num f))
      | _, _ => none
    else none
  | _ => none

/-- The wrapping operations ignore reduction of their second argument. -/
theorem u64sub_mod (a b : Nat) : u64sub a (b % W64) = u64sub a b := by
  simp only [u64sub, W64]
  omega

/-- Chained wrapping multiplication by literals collapses to one product. -/
theorem u64mul_chain (n a b : Nat) : u64mul (u64mul n a) b = u64mul n (a * b) := by
  simp only [u64mul, W64]
  rw [Nat.mod_mul_mod, Nat.mul_assoc]

/-- Multiplying by one only reduces modulo the u64 modulus. -/
theorem u64mul_one (n : Nat) : u64mul n 1 = n % W64 := by
  simp only [u64mul, Nat.mul_one]

/-- The unit-match in the source agrees with the claim's factor table composed
with an all-trailing-s strip. -/
theorem unit_match_eq (now num : Nat) (w : String) :
    (match w with
      | "second" => some (u64sub now num)
      | "minute" => some (u64sub now (u64mul num 60))
      | "hour" => some (u64sub now (u64mul (u64mul num 60) 60))
      | "day" => some (u64sub now (u64mul num 86400))
      | "week" => some (u64sub now (u64mul (u64mul num 86400) 7))
      | "month" => some (u64sub now (u64mul (u64mul num 86400) 30))
      | "year" => some (u64sub now (u64mul (u64mul num 86400) 365))
      | "decade" => some (u64sub now (u64mul (u64mul (u64mul num 86400) 365) 10))
      | _ => none) =
    (match unitFactor w with
      | some f => some (u64sub now (u64mul num f))
      | none => none) := by
  split
  · show some (u64sub now num) = some (u64sub now (u64mul num 1))
    rw [u64mul_one, u64sub_mod]
  · rfl
  · show some (u64sub now (u64mul (u64mul num 60) 60)) = some (u64sub now (u64mul num 3600))
    rw [u64mul_chain]
  · rfl
  · show some (u64sub now (u64mul (u64mul num 86400) 7)) =
        some (u64sub now (u64mul num (7 * 86400)))
    rw [u64mul_chain]
  · show some (u64sub now (u64mul (u64mul num 86400) 30)) =
        some (u64sub now (u64mul num (30 * 86400)))
    rw [u64mul_chain]
  · show some (u64sub now (u64mul (u64mul num 86400) 365)) =
        some (u64sub now (u64mul num (365 * 86400)))
    rw [u64mul_chain]
  · show some (u64sub now (u64mul (u64mul (u64mul num 86400) 365) 10)) =
        some (u64sub now (u64mul num (3650 * 86400)))
    rw [u64mul_chain, u64mul_chain]
  · unfold unitFactor
    split <;> simp_all

/-- C1 counterexample: the source strips EVERY trailing 's' from the unit token
(`trim_end_matches`), so "1 secondss ago" is accepted and yields `now - 1`,
while the claim as stated (strip one trailing 's') makes it invalid. -/
theorem C1_counterexample :
    parse_time_offset 100 "1 secondss ago" = some 99 ∧
    parseRelTimeClaim 100 "1 secondss ago" = none := by
  constructor
  · decide
  · decide

/-- C1 (amended): for every timestamp `now` and input string,
`parse_time_offset` returns `now` minus count times the unit factor (u64
arithmetic) exactly when the trimmed input is three space-separated tokens
"count unit ago" whose unit, after stripping ALL trailing 's' characters, is in
the fixed factor table; every other input yields invalid.  The stated examples
also hold, including the malformed ones. -/
theorem C1_theorem :
    (∀ now value, parse_time_offset now value = parseRelTimeAmended now value) ∧
    parse_time_offset 1000000000 "0 seconds ago" = some 1000000000 ∧
    parse_time_offset 1000000000 "1 year ago" = some (1000000000 - 365 * 86400) ∧
    parse_time_offset 1000000000 "" = none ∧
    parse_time_offset 1000000000 "ago" = none ∧
    parse_time_offset 1000000000 "5 ago" = none ∧
    parse_time_offset 1000000000 "5 fortnights ago" = none := by
  refine ⟨?_, by decide, by decide, by decide, by decide, by decide, by decide⟩
  intro now value
  unfold parse_time_offset parseRelTimeAmended
  by_cases he : sTrim value = ""
  · rw [he]
    rfl
  · rcases h : sSplit ' ' (sTrim value) with _ | ⟨n, _ | ⟨u, _ | ⟨a, _ | ⟨b, l⟩⟩⟩⟩
    · simp [if_neg he, h]
    · simp [if_neg he, h]
    · simp [if_neg he, h]
    · simp only [if_neg he, h, List.length_cons, List.length_nil, List.getD_cons_zero,
        List.getD_cons_succ, ne_eq, OfNat.ofNat_ne_zero, not_false_eq_true]
      rw [if_neg (by simp : ¬¬True)]
      rcases hp : parseU64 n with _ | num
      · simp [hp]
      · by_cases ha : a = "ago"
        · subst ha
          simp only [hp, ne_eq, not_true_eq_false, reduceIte]
          rw [unit_match_eq now num (sDropTrailing 's' u)]
          rcases unitFactor (sDropTrailing 's' u) with _ | f <;> rfl
        · simp [hp, ha]
    · simp only [if_neg he, h, List.length_cons]
      rw [if_pos (by omega : (l.length + 1 + 1 + 1 + 1 ≠ 3))]

/-! ## parse_data_size (src/main.rs lines 140–165) -/

/-- Exact decimal value `num / 10 ^ den10`.  A finite f64 parse result is
modelled exactly; the IEEE rounding of the finite value is not modelled (it is
exact on every value the repository's behaviour is claimed on, and scaling by a
power of two is always exact). -/
structure Dec where
  num : Int
  den10 : Nat

/-- Model of an f64 value as far as this program observes it. -/
inductive FVal
  | fin (d : Dec)
  | inf
  | neginf
  | nan

/-- ASCII lower-casing of one character. -/
def asciiLower (c : Char) : Char :=
  if 'A' ≤ c ∧ c ≤ 'Z' then Char.ofNat (c.toNat + 32) else c

/-- Apply a base-10 exponent to a decimal mantissa. -/
def applyExp (d : Dec) (eneg : Bool) (e : Nat) : Dec :=
  if eneg then ⟨d.num, d.den10 + e⟩ else ⟨d.num * (10 : Int) ^ e, d.den10⟩

/-- Apply a leading minus sign. -/
def applySign (neg : Bool) (d : Dec) : Dec := if neg then ⟨-d.num, d.den10⟩ else d

/-- Model of Rust f64::from_str: optional sign; case-insensitive "inf",
"infinity" or "nan"; otherwise decimal digits with an optional fraction part
and an optional exponent part, with at least one digit in mantissa. -/
def parseF64 (s : String) : Option FVal :=
  match s.data with
  | [] => none
  | c0 :: rest0 =>
    let neg := c0 = '-'
    let cs := if c0 = '-' ∨ c0 = '+' then rest0 else c0 :: rest0
    let low := cs.map asciiLower
    if low = "inf".data ∨ low = "infinity".data then
      some (if neg then FVal.neginf else FVal.inf)
    else if low = "nan".data then some FVal.nan
    else
      let d1 := cs.takeWhile Char.isDigit
      let r1 := cs.dropWhile Char.isDigit
      let d2 := match r1 with
        | '.' :: t => t.takeWhile Char.isDigit
        | _ => []
      let r2 := match r1 with
        | '.' :: t => t.dropWhile Char.isDigit
        | _ => r1
      if d1 = [] ∧ d2 = [] then none
      else
        let mant : Dec := ⟨(digitsVal d1 * 10 ^ d2.length + digitsVal d2 : Nat), d2.length⟩
        match r2 with
        | [] => some (FVal.fin (applySign neg mant))
        | e :: t =>
          if e = 'e' ∨ e = 'E' then
            let p : Bool × List Char := match t with
              | '+' :: v => (false, v)
              | '-' :: v => (true, v)
              | v => (false, v)
            if p.2 ≠ [] ∧ p.2.all Char.isDigit then
              some (FVal.fin (applySign neg (applyExp mant p.1 (digitsVal p.2))))
            else none
          else none

/-- Rust float-to-u64 `as` cast: NaN and non-positive values give 0, values at
or above 2^64 saturate to u64::MAX, finite values truncate toward zero. -/
def f64AsU64 : FVal → Nat
  | FVal.nan => 0
  | FVal.neginf => 0
  | FVal.inf => W64 - 1
  | FVal.fin d => if d.num ≤ 0 then 0 else min (d.num.toNat / 10 ^ d.den10) (W64 - 1)

/-- Multiplication of an f64 value by 1024^k (exact: scaling by a power of two
only moves the IEEE exponent; overflow to infinity and the saturating cast give
the same u64 as the exact value does). -/
def fvalMulP2 : FVal → Nat → FVal
  | FVal.fin d, k => FVal.fin ⟨d.num * (1024 : Int) ^ k, d.den10⟩
  | FVal.inf, _ => FVal.inf
  | FVal.neginf, _ => FVal.neginf
  | FVal.nan, _ => FVal.nan

/-- Embedding of `parse_data_size`: turns "87.8 MB" into a byte count. -/
def parse_data_size (value : String) : Option Nat :=
  if sTrim value = "" then none
  else
    let parts := sSplit ' ' (sTrim value)
    if parts.length ≠ 2 then none
    else
      match parseF64 (sRemoveAll ',' (parts.getD 0 "")) with
      | none => none
      | some number =>
        match sDropTrailing 's' (parts.getD 1 "") with
        | "B" => some (f64AsU64 number)
        | "KB" => some (f64AsU64 (fvalMulP2 number 1))
        | "MB" => some (f64AsU64 (fvalMulP2 number 2))
        | "GB" => some (f64AsU64 (fvalMulP2 number 3))
        | "TB" => some (f64AsU64 (fvalMulP2 number 4))
        | _ => none

/-- Claim C2's unit table: base-1024 exponent for a unit name. -/
def unitExp1024 (u : String) : Option Nat :=
  match u with
  | "B" => some 0
  | "KB" => some 1
  | "MB" => some 2
  | "GB" => some 3
  | "TB" => some 4
  | _ => none

/-- Claim C2 as stated: exactly two tokens; grouping commas stripped; the
number must parse as a NON-NEGATIVE real, else invalid; unit matched after
stripping ONE trailing 's'; result scaled and truncated toward zero (no
saturating cast is mentioned). -/
def parseSizeClaim (value : String) : Option Nat :=
  match sSplit ' ' (sTrim value) with
  | [numTok, unitTok] =>
    match parseF64 (sRemoveAll ',' numTok), unitExp1024 (sDropOneTrailing 's' unitTok) with
    | some (FVal.fin d), some k =>
      if 0 ≤ d.num then some (d.num.toNat * 1024 ^ k / 10 ^ d.den10) else none
    | _, _ => none
  | _ => none

/-- Claim C2 amended: the number is parsed with the full Rust float grammar
(sign, digits with optional fraction/exponent, inf/infinity/nan); anything
unparseable is invalid; the unit is matched after stripping ALL trailing 's'
characters; the scaled value goes through the saturating truncate-toward-zero
u64 cast (negative and NaN values give 0, 2^64 and above give u64::MAX). -/
def parseSizeAmended (value : String) : Option Nat :=
  match sSplit ' ' (sTrim value) with
  | [numTok, unitTok] =>
    match unitExp1024 (sDropTrailing 's' unitTok) with
    | some k => (parseF64 (sRemoveAll ',' numTok)).map (fun v => f64AsU64 (fvalMulP2 v k))
    | none => none
  | _ => none

/-- Scaling by 1024^0 does not change the cast result. -/
theorem fvalMulP2_zero (v : FVal) : fvalMulP2 v 0 = v := by
  cases v <;> simp [fvalMulP2]

/-- The unit-match in the source agrees with the claim's exponent table
composed with an all-trailing-s strip and saturating cast. -/
theorem size_match_eq (v : FVal) (w : String) :
    (match w with
      | "B" => some (f64AsU64 v)
      | "KB" => some (f64AsU64 (fvalMulP2 v 1))
      | "MB" => some (f64AsU64 (fvalMulP2 v 2))
      | "GB" => some (f64AsU64 (fvalMulP2 v 3))
      | "TB" => some (f64AsU64 (fvalMulP2 v 4))
      | _ => none) =
    (match unitExp1024 w with
      | some k => some (f64AsU64 (fvalMulP2 v k))
      | none => none) := by
  split
  · show some (f64AsU64 v) = some (f64AsU64 (fvalMulP2 v 0))
    rw [fvalMulP2_zero]
  · rfl
  · rfl
  · rfl
  · rfl
  · unfold unitExp1024
    split <;> simp_all

/-- C2 counterexample: "-1" parses as an f64 and the saturating cast clamps it
to 0, so the code accepts "-1 B" with result 0, while the claim as stated
(non-negative real required) makes it invalid. -/
theorem C2_counterexample :
    parse_data_size "-1 B" = some 0 ∧ parseSizeClaim "-1 B" = none := by
  constructor
  · decide
  · decide

/-- C2 (amended): for every input string, `parse_data_size` accepts exactly the
two-token shape "number unit": commas are stripped, the number is parsed with
the Rust float grammar, the unit is matched after stripping ALL trailing 's'
against B/KB/MB/GB/TB with base-1024 scaling, and the result is the saturating
truncate-toward-zero u64 cast of the scaled value.  The stated examples hold. -/
theorem C2_theorem :
    (∀ value, parse_data_size value = parseSizeAmended value) ∧
    parse_data_size "1 KB" = some 1024 ∧
    parse_data_size "1.5 MB" = some 1572864 ∧
    parse_data_size "1,024 B" = some 1024 ∧
    parse_data_size "1 PB" = none := by
  refine ⟨?_, by decide, by decide, by decide, by decide⟩
  intro value
  unfold parse_data_size parseSizeAmended
  by_cases he : sTrim value = ""
  · rw [he]
    rfl
  · rcases h : sSplit ' ' (sTrim value) with _ | ⟨n, _ | ⟨u, _ | ⟨a, l⟩⟩⟩
    · simp [if_neg he, h]
    · simp [if_neg he, h]
    · simp only [if_neg he, h, List.length_cons, List.length_nil, List.getD_cons_zero,
        List.getD_cons_succ, ne_eq, OfNat.ofNat_ne_zero, not_false_eq_true]
      rw [if_neg (by simp : ¬¬True)]
      rcases hp : parseF64 (sRemoveAll ',' n) with _ | num
      · simp [hp]
        rcases unitExp1024 (sDropTrailing 's' u) with _ | k <;> rfl
      · simp only [hp, Option.map_some]
        rw [size_match_eq num (sDropTrailing 's' u)]
        rcases unitExp1024 (sDropTrailing 's' u) with _ | k <;> rfl
    · simp only [if_neg he, h, List.length_cons]
      rw [if_pos (by omega : (l.length + 1 + 1 + 1 ≠ 2))]

/-! ## parse_file (src/main.rs lines 168–179) -/

/-- Embedding of the Rust `File` struct. -/
structure File where
  name : String
  size : Nat
deriving DecidableEq

/-- Split a char list at the LAST occurrence of '(' (Rust rfind): returns the
part strictly before it and the part strictly after it. -/
def splitAtLastOpen (cs : List Char) : Option (List Char × List Char) :=
  let rev := cs.reverse
  match rev.dropWhile (fun d => d ≠ '(') with
  | [] => none
  | _ :: beforeRev => some (beforeRev.reverse, (rev.takeWhile (fun d => d ≠ '(')).reverse)

/-- Embedding of `parse_file`: turns "File Name (1.2 GB)" into a `File`. -/
def parse_file (value : String) : Option File :=
  if sTrim value = "" ∨ sEndsWith (sTrim value) ")" = false then none
  else
    match splitAtLastOpen (sTrim value).data with
    | none => none
    | some (before, after) =>
      match parse_data_size ⟨after.dropLast⟩ with
      | none => none
      | some size => some ⟨sTrim ⟨before⟩, size⟩

/-- Claim C3 as stated: the (trimmed) text must end with ')'; split at the last
'('; the trimmed prefix is the name and must be NON-EMPTY (else invalid); the
part between the last '(' and the final ')' is parsed as a size. -/
def parseFileClaim (value : String) : Option File :=
  if sEndsWith (sTrim value) ")" = false then none
  else
    match splitAtLastOpen (sTrim value).data with
    | none => none
    | some (before, after) =>
      if sTrim ⟨before⟩ = "" then none
      else (parse_data_size ⟨after.dropLast⟩).map (fun size => ⟨sTrim ⟨before⟩, size⟩)

/-- Claim C3 amended: identical but WITHOUT the empty-name rejection — the
code happily returns a file entry whose name is the empty string. -/
def parseFileAmended (value : String) : Option File :=
  if sEndsWith (sTrim value) ")" = false then none
  else
    match splitAtLastOpen (sTrim value).data with
    | none => none
    | some (before, after) =>
      (parse_data_size ⟨after.dropLast⟩).map (fun size => ⟨sTrim ⟨before⟩, size⟩)

/-- C3 counterexample: the code never checks that the name is non-empty:
"(1 KB)" yields a file entry named "" with size 1024, while the claim as
stated makes it invalid. -/
theorem C3_counterexample :
    parse_file "(1 KB)" = some ⟨"", 1024⟩ ∧ parseFileClaim "(1 KB)" = none := by
  constructor
  · decide
  · decide

/-- C3 (amended): for every input, `parse_file` trims the text, requires it to
end with ')', splits at the last '(', takes the trimmed (possibly empty) prefix
as the name and parses the part between the last '(' and the trailing ')' with
`parse_data_size`; a missing '(' or a failed size parse yields invalid.  The
stated examples hold (1.2 GB = 1288490188 bytes truncated). -/
theorem C3_theorem :
    (∀ value, parse_file value = parseFileAmended value) ∧
    parse_file "Movie (Part 1) (1.2 GB)" = some ⟨"Movie (Part 1)", 1288490188⟩ ∧
    parse_file "broken" = none := by
  refine ⟨?_, by decide, by decide⟩
  intro value
  unfold parse_file parseFileAmended
  by_cases he : sTrim value = ""
  · rw [he]
    rfl
  · by_cases hw : sEndsWith (sTrim value) ")" = false
    · simp [he, hw]
    · rw [if_neg (by simp [he, hw]), if_neg hw]
      rcases hs : splitAtLastOpen (sTrim value).data with _ | ⟨before, after⟩
      · rfl
      · rcases hp : parse_data_size ⟨after.dropLast⟩ with _ | size <;> simp [hp]

/-! ## Record types (src/main.rs lines 31–101) -/

/-- Embedding of the Rust `Comment` struct. -/
structure Comment where
  avatar : String
  «class» : String
  comment : String
  commentid : Nat
  posted : Nat
  username : String
deriving DecidableEq

/-- Embedding of the Rust `RawComment` struct (the comment-feed JSON shape). -/
structure RawComment where
  avatar : String
  «class» : Option String
  comment : String
  commentid : Nat
  posted : String
  username : Option String
deriving DecidableEq

/-- Embedding of the Rust `TorrentInfo` struct. -/
structure TorrentInfo where
  name : String
  description : String
  infohash : String
  category : String
  ty : String
  language : String
  total_size : Nat
  uploader : String
  downloads : Nat
  last_checked_ts : Nat
  uploaded_ts : Nat
  seeders : Nat
  leechers : Nat
  scraped_ts : Nat
  tmdb_id : Option Nat
  series_id : Option String
  images : List String
  trackers : List String
  files : List File
  comments : List Comment
deriving DecidableEq

/-! ## Serde model (the derived Serialize/Deserialize impls of the records)

JSON itself is an external collaborator; what is modelled is the field-level
contract the derive attributes produce: declaration-order fields,
serde(skip_serializing_if) omission on serialization, serde(default) on
deserialization. -/

/-- Minimal JSON value model. -/
inductive J
  | str (s : String)
  | num (n : Nat)
  | arr (xs : List J)
  | obj (fields : List (String × J))
  | null

/-- serde(skip_serializing_if): emit the field unless the predicate holds. -/
def jField (p : Prop) [Decidable p] (k : String) (v : J) : List (String × J) :=
  if p then [] else [(k, v)]

/-- Serialization of `File` (size omitted when 0, per is_zero_u64). -/
def serFile (f : File) : J :=
  J.obj ([("name", J.str f.name)] ++ jField (f.size = 0) "size" (J.num f.size))

/-- Serialization of `Comment` (avatar omitted at the thread-user sentinel,
class omitted at "user"). -/
def serComment (c : Comment) : J :=
  J.obj (jField (c.avatar = "/images/thread-user.jpg") "avatar" (J.str c.avatar) ++
         jField (c.«class» = "user") "class" (J.str c.«class») ++
         [("comment", J.str c.comment), ("commentid", J.num c.commentid),
          ("posted", J.num c.posted), ("username", J.str c.username)])

/-- Serialization of `TorrentInfo` (zero counts, empty lists and unset options
omitted, per the serde attributes). -/
def serTorrentInfo (t : TorrentInfo) : J :=
  J.obj ([("name", J.str t.name), ("description", J.str t.description),
          ("infohash", J.str t.infohash), ("category", J.str t.category),
          ("ty", J.str t.ty), ("language", J.str t.language),
          ("total_size", J.num t.total_size), ("uploader", J.str t.uploader),
          ("downloads", J.num t.downloads), ("last_checked_ts", J.num t.last_checked_ts),
          ("uploaded_ts", J.num t.uploaded_ts)] ++
         jField (t.seeders = 0) "seeders" (J.num t.seeders) ++
         jField (t.leechers = 0) "leechers" (J.num t.leechers) ++
         [("scraped_ts", J.num t.scraped_ts)] ++
         (match t.tmdb_id with
          | none => []
          | some v => [("tmdb_id", J.num v)]) ++
         (match t.series_id with
          | none => []
          | some v => [("series_id", J.str v)]) ++
         jField (t.images = []) "images" (J.arr (t.images.map J.str)) ++
         jField (t.trackers = []) "trackers" (J.arr (t.trackers.map J.str)) ++
         jField (t.files = []) "files" (J.arr (t.files.map serFile)) ++
         jField (t.comments = []) "comments" (J.arr (t.comments.map serComment)))

/-- First value bound to a key in a JSON object. -/
def jLookup (fs : List (String × J)) (k : String) : Option J :=
  match fs with
  | [] => none
  | (k2, v) :: rest => if k2 = k then some v else jLookup rest k

/-- Expect a JSON string. -/
def jStr : J → Option String
  | J.str s => some s
  | _ => none

/-- Expect a JSON number (u64/usize target). -/
def jNat : J → Option Nat
  | J.num n => some n
  | _ => none

/-- Mandatory string field. -/
def reqStr (fs : List (String × J)) (k : String) : Option String := (jLookup fs k).bind jStr

/-- Mandatory numeric field. -/
def reqNat (fs : List (String × J)) (k : String) : Option Nat := (jLookup fs k).bind jNat

/-- serde(default) string field. -/
def optStrD (fs : List (String × J)) (k : String) (d : String) : Option String :=
  match jLookup fs k with
  | none => some d
  | some v => jStr v

/-- serde(default) numeric field. -/
def optNatD (fs : List (String × J)) (k : String) (d : Nat) : Option Nat :=
  match jLookup fs k with
  | none => some d
  | some v => jNat v

/-- serde(default) Option-of-number field (absent or null gives none). -/
def optOptNat (fs : List (String × J)) (k : String) : Option (Option Nat) :=
  match jLookup fs k with
  | none => some none
  | some J.null => some none
  | some v => (jNat v).map some

/-- serde(default) Option-of-string field (absent or null gives none). -/
def optOptStr (fs : List (String × J)) (k : String) : Option (Option String) :=
  match jLookup fs k with
  | none => some none
  | some J.null => some none
  | some v => (jStr v).map some

/-- Deserialize every element of a list or fail. -/
def mapO {α β : Type} (p : α → Option β) : List α → Option (List β)
  | [] => some []
  | x :: xs =>
    match p x, mapO p xs with
    | some y, some ys => some (y :: ys)
    | _, _ => none

/-- Expect a JSON array with elementwise deserialization. -/
def jList {α : Type} (p : J → Option α) : J → Option (List α)
  | J.arr xs => mapO p xs
  | _ => none

/-- serde(default) list field. -/
def optListD {α : Type} (p : J → Option α) (fs : List (String × J)) (k : String) :
    Option (List α) :=
  match jLookup fs k with
  | none => some []
  | some v => jList p v

/-- Deserialization of `File`. -/
def deFile : J → Option File
  | J.obj fs => do
    let n ← reqStr fs "name"
    let s ← optNatD fs "size" 0
    pure ⟨n, s⟩
  | _ => none

/-- Deserialization of `Comment`. -/
def deComment : J → Option Comment
  | J.obj fs => do
    let a ← optStrD fs "avatar" "/images/thread-user.jpg"
    let cl ← optStrD fs "class" "user"
    let co ← reqStr fs "comment"
    let ci ← reqNat fs "commentid"
    let p ← reqNat fs "posted"
    let u ← reqStr fs "username"
    pure ⟨a, cl, co, ci, p, u⟩
  | _ => none

/-- Deserialization of `TorrentInfo` (mandatory fields required, defaulted
fields recovered when absent; written as nested matches). -/
def deTorrentInfo : J → Option TorrentInfo
  | J.obj fs =>
    match reqStr fs "name" with
    | none => none
    | some name =>
     match reqStr fs "description" with
     | none => none
     | some description =>
      match reqStr fs "infohash" with
      | none => none
      | some infohash =>
       match reqStr fs "category" with
       | none => none
       | some category =>
        match reqStr fs "ty" with
        | none => none
        | some ty =>
         match reqStr fs "language" with
         | none => none
         | some language =>
          match reqNat fs "total_size" with
          | none => none
          | some total_size =>
           match reqStr fs "uploader" with
           | none => none
           | some uploader =>
            match reqNat fs "downloads" with
            | none => none
            | some downloads =>
             match reqNat fs "last_checked_ts" with
             | none => none
             | some last_checked_ts =>
              match reqNat fs "uploaded_ts" with
              | none => none
              | some uploaded_ts =>
               match optNatD fs "seeders" 0 with
               | none => none
               | some seeders =>
                match optNatD fs "leechers" 0 with
                | none => none
                | some leechers =>
                 match reqNat fs "scraped_ts" with
                 | none => none
                 | some scraped_ts =>
                  match optOptNat fs "tmdb_id" with
                  | none => none
                  | some tmdb_id =>
                   match optOptStr fs "series_id" with
                   | none => none
                   | some series_id =>
                    match optListD jStr fs "images" with
                    | none => none
                    | some images =>
                     match optListD jStr fs "trackers" with
                     | none => none
                     | some trackers =>
                      match optListD deFile fs "files" with
                      | none => none
                      | some files =>
                       match optListD deComment fs "comments" with
                       | none => none
                       | some comments =>
                        some ⟨name, description, infohash, category, ty, language, total_size, uploader, downloads, last_checked_ts, uploaded_ts, seeders, leechers, scraped_ts, tmdb_id, series_id, images, trackers, files, comments⟩
  | _ => none

/-- Elementwise roundtrip lifts to lists. -/
theorem mapO_map {α β : Type} (p : β → Option α) (f : α → β)
    (h : ∀ x, p (f x) = some x) (l : List α) : mapO p (l.map f) = some l := by
  induction l with
  | nil => rfl
  | cons x xs ih => simp [mapO, h, ih]

/-- File roundtrips through its serde model. -/
theorem deFile_serFile (f : File) : deFile (serFile f) = some f := by
  rcases f with ⟨n, s⟩
  by_cases hs : s = 0 <;>
    simp [serFile, deFile, jField, reqStr, optNatD, jLookup, jStr, jNat, hs]

/-- Comment roundtrips through its serde model. -/
theorem deComment_serComment (c : Comment) : deComment (serComment c) = some c := by
  rcases c with ⟨a, cl, co, ci, p, u⟩
  by_cases ha : a = "/images/thread-user.jpg" <;> by_cases hcl : cl = "user" <;>
    simp [serComment, deComment, jField, reqStr, reqNat, optStrD, jLookup, jStr, jNat,
      ha, hcl]

/-- String lists roundtrip elementwise. -/
theorem mapO_jStr (l : List String) : mapO jStr (l.map J.str) = some l :=
  mapO_map jStr J.str (fun _ => rfl) l

/-- File lists roundtrip elementwise. -/
theorem mapO_deFile (l : List File) : mapO deFile (l.map serFile) = some l :=
  mapO_map _ _ deFile_serFile l

/-- Comment lists roundtrip elementwise. -/
theorem mapO_deComment (l : List Comment) : mapO deComment (l.map serComment) = some l :=
  mapO_map _ _ deComment_serComment l

set_option maxHeartbeats 4000000 in
/-- Every TorrentInfo roundtrips through the serde model: serialization omits
defaulted fields and deserialization restores them. -/
theorem deTorrentInfo_serTorrentInfo (t : TorrentInfo) :
    deTorrentInfo (serTorrentInfo t) = some t := by
  rcases t with ⟨name, description, infohash, category, ty, language, total_size, uploader,
    downloads, last_checked_ts, uploaded_ts, seeders, leechers, scraped_ts, tmdb_id,
    series_id, images, trackers, files, comments⟩
  rcases tmdb_id with _ | tmv <;> rcases series_id with _ | siv <;>
    by_cases hs : seeders = 0 <;> by_cases hl : leechers = 0 <;>
    by_cases him : images = [] <;> by_cases htr : trackers = [] <;>
    by_cases hfi : files = [] <;> by_cases hco : comments = [] <;>
    simp [serTorrentInfo, deTorrentInfo, jField, jLookup, reqStr, reqNat, optNatD,
      optOptNat, optOptStr, optListD, jStr, jNat, jList, mapO_jStr, mapO_deFile,
      mapO_deComment, hs, hl, him, htr, hfi, hco]

/-- An Item with every optional field at its default. -/
def itemDefault : TorrentInfo :=
  ⟨"a", "", "hash", "Movies", "HD", "English", 1024, "bob", 5, 100, 90, 0, 0, 120,
    none, none, [], [], [], []⟩

/-- An Item with every optional field populated. -/
def itemFull : TorrentInfo :=
  ⟨"a", "d", "hash", "Movies", "HD", "English", 1024, "bob", 5, 100, 90, 3, 2, 120,
    some 42, some "breaking-bad", ["i1", "i2"], ["t1"], [⟨"f", 7⟩, ⟨"g", 0⟩],
    [⟨"av", "vip", "hi", 1, 50, "u1"⟩, ⟨"/images/thread-user.jpg", "user", "yo", 2, 60, "u2"⟩]⟩

/-- C7: serializing an Item to JSON (omitting fields at their
default/zero/empty/sentinel values) and deserializing yields the original Item
— universally, and in particular for an all-default and a fully populated
item. -/
theorem C7_theorem :
    (∀ t : TorrentInfo, deTorrentInfo (serTorrentInfo t) = some t) ∧
    deTorrentInfo (serTorrentInfo itemDefault) = some itemDefault ∧
    deTorrentInfo (serTorrentInfo itemFull) = some itemFull := by
  refine ⟨deTorrentInfo_serTorrentInfo, by decide, by decide⟩

/-! ## Record Extractor (scrape_torrent, src/main.rs lines 181–373)

The HTTP transport and the CSS-selector engine are external collaborators.  An
extraction's inputs are therefore: the primary response (status code and raw
body text), the selector results over the parsed document (`Doc`), and the
outcome of the conditional comment-feed request — a transport result carrying
the feed's status code and the serde parse of its body as a raw-comment array
(`none` when the body is not such an array). -/

/-- A selected span element: its text nodes in order. -/
structure SpanE where
  texts : List String
deriving DecidableEq

/-- A selected .list block: its span descendants in order. -/
structure ListE where
  spans : List SpanE
deriving DecidableEq

/-- Selector results of one detail-page document. -/
structure Doc where
  lists : List ListE
  movieLinkHref : Option (Option String)
  infohashTexts : Option (List String)
  h1Texts : Option (List String)
  descriptionTexts : Option (List String)
  imageAttrs : List (Option String)
  trackerTexts : List (List String)
  fileTexts : List (List String)
  commentCountTexts : Option (List String)
deriving DecidableEq

/-- First text node of a span, or "" (text().next().unwrap_or_default()). -/
def firstText (sp : SpanE) : String := sp.texts.headD ""

/-- The marker strings whose presence in the body means the item does not
exist (lines 198–200). -/
def hasTombstoneMarker (body : String) : Bool :=
  sContains body "Bad Torrent ID." ||
    sContains body "This torrent is hidden and pending moderation."

/-- The ten field spans: all spans of the second and third .list blocks. -/
def tenSpans (doc : Doc) : List SpanE :=
  (doc.lists.getD 1 ⟨[]⟩).spans ++ (doc.lists.getD 2 ⟨[]⟩).spans

/-- Uploader text: first non-blank trimmed text node of the fifth span. -/
def uploaderText (doc : Doc) : String :=
  ((((tenSpans doc).getD 4 ⟨[]⟩).texts.map sTrim).filter (fun s => s ≠ "")).headD ""

/-- Identity-link resolution (lines 229–258): "/movie/<id>/<slug>" with exactly
three non-empty path segments sets the TMDB id, "/series/<name>" with exactly
two sets the series id, and any other shape (or unparseable id) leaves both
unset — a soft failure. -/
def parseIdentity (movieLink : Option String) : Option Nat × Option String :=
  match movieLink with
  | none => (none, none)
  | some link =>
    if sStartsWith link "/movie/" then
      if ((sSplit '/' link).filter (fun p => p ≠ "")).length ≠ 3 then (none, none)
      else
        match parseU64 (((sSplit '/' link).filter (fun p => p ≠ "")).getD 1 "") with
        | some id => (some id, none)
        | none => (none, none)
    else if sStartsWith link "/series/" then
      if ((sSplit '/' link).filter (fun p => p ≠ "")).length ≠ 2 then (none, none)
      else (none, some (((sSplit '/' link).filter (fun p => p ≠ "")).getD 1 ""))
    else (none, none)

/-- The page heading, concatenated and trimmed (line 268). -/
def headingRaw (h1Texts : List String) : String := sTrim (sConcat h1Texts)

/-- Whether the heading carries the three-dot truncation marker (line 270). -/
def headingTrunc (h1Texts : List String) : Bool := sEndsWith (headingRaw h1Texts) "..."

/-- The heading with the truncation marker stripped (lines 270–275). -/
def headingName (h1Texts : List String) : String :=
  if headingTrunc h1Texts then sDropRight 3 (headingRaw h1Texts) else headingRaw h1Texts

/-- Description text: nodes trimmed, blanks dropped, the "No description
given." sentinel cleared, remainder joined with newlines (lines 278–282). -/
def joinedDescription (descTexts : List String) : String :=
  sJoinNL (if (descTexts.map sTrim).filter (fun tt => tt ≠ "") = ["No description given."]
    then []
    else (descTexts.map sTrim).filter (fun tt => tt ≠ ""))

/-- Heading/description disambiguation (lines 266–286): when the truncated
heading is a prefix of the description (or the full heading is its first line),
the description's first line becomes the title and is removed.  Returns none
where the source would panic: lines().next().unwrap() on an empty
description. -/
def resolveNameDesc (h1Texts descTexts : List String) : Option (String × String) :=
  if (headingTrunc h1Texts && sStartsWith (joinedDescription descTexts) (headingName h1Texts))
      || (!headingTrunc h1Texts &&
          sStartsWith (joinedDescription descTexts) (headingName h1Texts ++ "\n")) then
    match rustLines (joinedDescription descTexts) with
    | [] => none
    | l :: rest => some (l, sJoinNL rest)
  else some (headingName h1Texts, joinedDescription descTexts)

/-- Comment-count badge (lines 314–317): first span's first text parsed as a
number, defaulting to zero. -/
def commentCount (doc : Doc) : Nat :=
  (doc.commentCountTexts.bind (fun txts => txts.head?.bind parseU64)).getD 0

/-- Conversion of one raw comment (lines 328–345): an unparseable posted time
drops the entry; missing class or username defaults to "[deleted]". -/
def convComment (now : Nat) (rc : RawComment) : Option Comment :=
  (parse_time_offset now rc.posted).map (fun posted =>
    ⟨rc.avatar, rc.«class».getD "[deleted]", rc.comment, rc.commentid, posted,
      rc.username.getD "[deleted]"⟩)

/-- The comments block (lines 318–349): skipped at zero count; a transport
failure propagates out of the whole extraction, as does a feed body that is not
a raw-comment array; a delivered non-200 status degrades to no comments. -/
def scrapeComments (now count : Nat)
    (feed : Except String (Nat × Option (List RawComment))) :
    Except String (List Comment) :=
  if count > 0 then
    match feed with
    | Except.error e => Except.error e
    | Except.ok (status, parsed) =>
      if status ≠ 200 then Except.ok []
      else
        match parsed with
        | none => Except.error "comment feed body is not a raw-comment array"
        | some raws => Except.ok (raws.filterMap (convComment now))
  else Except.ok []

/-- Extraction up to (not including) the comments block (lines 181–311): the
status gate, the tombstone markers inside the wrong-list-count branch, the ten
positional spans, the identity link, infohash, heading/description, images,
trackers and files.  `Except.ok none` is the tombstone. -/
def scrapeCore (now status : Nat) (body : String) (doc : Doc) :
    Except String (Option TorrentInfo) :=
  if status ≠ 200 then Except.error "Unexpected status code"
  else if doc.lists.length ≠ 3 then
    (if hasTombstoneMarker body then Except.ok none
     else Except.error "Unexpected number of lists")
  else if (tenSpans doc).length ≠ 10 then Except.error "Unexpected number of spans"
  else
    match parse_data_size (firstText ((tenSpans doc).getD 3 ⟨[]⟩)) with
    | none => Except.error "Invalid size"
    | some total_size =>
      match parseU64 (firstText ((tenSpans doc).getD 5 ⟨[]⟩)) with
      | none => Except.error "Invalid downloads"
      | some downloads =>
        match parse_time_offset now (firstText ((tenSpans doc).getD 6 ⟨[]⟩)) with
        | none => Except.error "Invalid last checked"
        | some last_checked_ts =>
          match parse_time_offset now (firstText ((tenSpans doc).getD 7 ⟨[]⟩)) with
          | none => Except.error "Invalid uploaded"
          | some uploaded_ts =>
            match parseU64 (firstText ((tenSpans doc).getD 8 ⟨[]⟩)) with
            | none => Except.error "invalid seeders count"
            | some seeders =>
              match parseU64 (firstText ((tenSpans doc).getD 9 ⟨[]⟩)) with
              | none => Except.error "invalid leechers count"
              | some leechers =>
                match doc.infohashTexts with
                | none => Except.error "No infohash found"
                | some ihTexts =>
                  match doc.h1Texts with
                  | none => Except.error "No h1 found"
                  | some h1 =>
                    match doc.descriptionTexts with
                    | none => Except.error "No description found"
                    | some descTexts =>
                      match resolveNameDesc h1 descTexts with
                      | none => Except.error "panic: lines().next() on empty description"
                      | some nd =>
                        Except.ok (some ⟨nd.1, nd.2, sTrim (sConcat ihTexts),
                          firstText ((tenSpans doc).getD 0 ⟨[]⟩),
                          firstText ((tenSpans doc).getD 1 ⟨[]⟩),
                          firstText ((tenSpans doc).getD 2 ⟨[]⟩),
                          total_size, uploaderText doc, downloads, last_checked_ts,
                          uploaded_ts, seeders, leechers, now,
                          (parseIdentity (doc.movieLinkHref.bind (fun h => h))).1,
                          (parseIdentity (doc.movieLinkHref.bind (fun h => h))).2,
                          doc.imageAttrs.filterMap (fun a => a),
                          doc.trackerTexts.map (fun txts => sTrim (sConcat txts)),
                          (doc.fileTexts.map (fun txts => sTrim (sConcat txts))).filterMap
                            parse_file,
                          []⟩)

/-- Full extraction (scrape_torrent): the core, then the conditional
comment-feed request merged into the record. -/
def scrapeTorrent (now status : Nat) (body : String) (doc : Doc)
    (feed : Except String (Nat × Option (List RawComment))) :
    Except String (Option TorrentInfo) :=
  match scrapeCore now status body doc with
  | Except.error e => Except.error e
  | Except.ok none => Except.ok none
  | Except.ok (some info) =>
    match scrapeComments now (commentCount doc) feed with
    | Except.error e => Except.error e
    | Except.ok comments => Except.ok (some { info with comments := comments })

/-- A one-text span. -/
def mkSpan (t : String) : SpanE := ⟨[t]⟩

/-- A detail-page document on which every extraction step succeeds: three list
blocks carrying ten well-formed spans, a movie identity link, infohash,
heading, description, one image, one tracker, one file and a comment count of
two. -/
def goodDoc : Doc :=
  ⟨[⟨[]⟩,
    ⟨[mkSpan "Movies", mkSpan "HD", mkSpan "English", mkSpan "1 KB", ⟨[" ", "bob"]⟩]⟩,
    ⟨[mkSpan "5", mkSpan "1 hour ago", mkSpan "2 days ago", mkSpan "3", mkSpan "1"]⟩],
   some (some "/movie/123/slug/"), some ["ABCDEF"], some ["Title"], some ["Desc"],
   [some "http-img1", none], [["udp-tr1"]], [["f1 (2 KB)"]], some ["2"]⟩

/-- The record goodDoc extracts to at time 1000000 (before comments). -/
def itemGood : TorrentInfo :=
  ⟨"Title", "Desc", "ABCDEF", "Movies", "HD", "English", 1024, "bob", 5, 996400, 827200,
    3, 1, 1000000, some 123, none, ["http-img1"], ["udp-tr1"], [⟨"f1", 2048⟩], []⟩

/-- A document carrying the not-found marker situation in which the list count
is nevertheless exactly three (with no spans). -/
def markerDoc3 : Doc := ⟨[⟨[]⟩, ⟨[]⟩, ⟨[]⟩], none, none, none, none, [], [], [], none⟩

/-- A document with no list blocks at all. -/
def docNoLists : Doc := ⟨[], none, none, none, none, [], [], [], none⟩

/-- C4 counterexample: a body carrying the not-found marker together with a
document that has exactly three list blocks is NOT turned into a Tombstone —
the marker check is unreachable there and the extraction fails structurally. -/
theorem C4_counterexample :
    hasTombstoneMarker "Bad Torrent ID." = true ∧
    markerDoc3.lists.length = 3 ∧
    scrapeTorrent 1000 200 "Bad Torrent ID." markerDoc3 (Except.ok (200, some [])) =
      Except.error "Unexpected number of spans" := by
  refine ⟨by decide, by decide, ?_⟩
  rfl

/-- C4 (amended): the marker check lives inside the wrong-list-count branch:
whenever the primary status is 200 and the document does NOT have exactly three
list blocks, a marker-bearing body yields the Tombstone, taking priority over
the structural list-count failure. -/
theorem C4_theorem (now status : Nat) (body : String) (doc : Doc)
    (feed : Except String (Nat × Option (List RawComment)))
    (hst : status = 200) (hlen : doc.lists.length ≠ 3)
    (hm : hasTombstoneMarker body = true) :
    scrapeTorrent now status body doc feed = Except.ok none := by
  subst hst
  unfold scrapeTorrent scrapeCore
  rw [if_neg (by omega), if_pos hlen, if_pos hm]

/-- C4 witness: the amended statement at a concrete marker page with zero list
blocks. -/
theorem C4_witness :
    (docNoLists.lists.length ≠ 3 ∧ hasTombstoneMarker "a Bad Torrent ID. b" = true) ∧
    scrapeTorrent 7 200 "a Bad Torrent ID. b" docNoLists (Except.error "e") =
      Except.ok none :=
  ⟨⟨by decide, by decide⟩,
    C4_theorem 7 200 "a Bad Torrent ID. b" docNoLists (Except.error "e") rfl (by decide)
      (by decide)⟩

/-- C5 counterexample: heading "..." (truncated to the empty title) with an
empty description satisfies the dedup condition, but the code panics on
lines().next() (modelled as none) instead of promoting a first line to the
title. -/
theorem C5_counterexample :
    headingTrunc ["..."] = true ∧
    sStartsWith (joinedDescription []) (headingName ["..."]) = true ∧
    resolveNameDesc ["..."] [] = none := by
  refine ⟨by decide, by decide, by decide⟩

/-- C5 (amended): when the dedup condition holds — truncated heading that
prefixes the description, or untruncated heading followed by a newline — AND
the joined description is non-empty (its Rust line split is l :: rest), the
first line becomes the title and the remaining lines, re-joined, the
description. -/
theorem C5_theorem (h1Texts descTexts : List String) (l : String) (rest : List String)
    (hcond : (headingTrunc h1Texts = true ∧
        sStartsWith (joinedDescription descTexts) (headingName h1Texts) = true) ∨
      (headingTrunc h1Texts = false ∧
        sStartsWith (joinedDescription descTexts) (headingName h1Texts ++ "\n") = true))
    (hlines : rustLines (joinedDescription descTexts) = l :: rest) :
    resolveNameDesc h1Texts descTexts = some (l, sJoinNL rest) := by
  unfold resolveNameDesc
  rcases hcond with ⟨ht, hsw⟩ | ⟨ht, hsw⟩ <;> rw [if_pos (by simp [ht, hsw]), hlines]

/-- C5 witness: the claim's own example — heading "Foo Ba..." with description
"Foo Bar\nmore text" gives title "Foo Bar" and description "more text". -/
theorem C5_witness :
    ((headingTrunc ["Foo Ba..."] = true ∧
        sStartsWith (joinedDescription ["Foo Bar", "more text"])
          (headingName ["Foo Ba..."]) = true) ∧
      rustLines (joinedDescription ["Foo Bar", "more text"]) = ["Foo Bar", "more text"]) ∧
    resolveNameDesc ["Foo Ba..."] ["Foo Bar", "more text"] =
      some ("Foo Bar", sJoinNL ["more text"]) :=
  ⟨⟨⟨by decide, by decide⟩, by decide⟩,
    C5_theorem ["Foo Ba..."] ["Foo Bar", "more text"] "Foo Bar" ["more text"]
      (Or.inl ⟨by decide, by decide⟩) (by decide)⟩

/-- Any identity-link shape sets at most one of the two external ids. -/
theorem parseIdentity_excl (ml : Option String) :
    (parseIdentity ml).1 = none ∨ (parseIdentity ml).2 = none := by
  rcases ml with _ | link
  · exact Or.inl rfl
  · simp only [parseIdentity]
    repeat' split
    all_goals simp

/-- The core extraction only sets the external ids through parseIdentity, so a
successfully produced record carries at most one of them. -/
theorem scrapeCore_excl (now status : Nat) (body : String) (doc : Doc)
    (info : TorrentInfo)
    (h : scrapeCore now status body doc = Except.ok (some info)) :
    info.tmdb_id = none ∨ info.series_id = none := by
  unfold scrapeCore at h
  repeat' split at h
  all_goals simp_all
  all_goals subst h
  all_goals exact parseIdentity_excl _

/-- C6: for every successfully extracted Item, tmdb_id and series_id are never
both set. -/
theorem C6_theorem (now status : Nat) (body : String) (doc : Doc)
    (feed : Except String (Nat × Option (List RawComment))) (info : TorrentInfo)
    (h : scrapeTorrent now status body doc feed = Except.ok (some info)) :
    info.tmdb_id = none ∨ info.series_id = none := by
  unfold scrapeTorrent at h
  rcases hc : scrapeCore now status body doc with e | oi
  · simp only [hc] at h
    exact Except.noConfusion h
  · simp only [hc] at h
    rcases oi with _ | info0
    · simp at h
    · rcases hcm : scrapeComments now (commentCount doc) feed with e | cs
      · simp only [hcm] at h
        exact Except.noConfusion h
      · simp only [hcm, Except.ok.injEq, Option.some.injEq] at h
        subst h
        exact scrapeCore_excl now status body doc info0 hc

/-- C6 witness: the concrete good document extracts an Item whose series id is
unset while the movie id is set. -/
theorem C6_witness :
    scrapeTorrent 1000000 200 "x" goodDoc (Except.ok (200, some [])) =
      Except.ok (some itemGood) ∧
    (itemGood.tmdb_id = none ∨ itemGood.series_id = none) :=
  ⟨by rfl,
    C6_theorem 1000000 200 "x" goodDoc (Except.ok (200, some [])) itemGood (by rfl)⟩

/-- C10: once the core extraction succeeded and the comment-count is positive,
a transport failure of the comment-feed request propagates as the extraction's
error, and so does a feed body that is not a raw-comment array; only a
delivered non-200 status is handled softly, producing the record with an empty
comment list. -/
theorem C10_theorem :
    (∀ now status body doc info e,
      scrapeCore now status body doc = Except.ok (some info) →
      0 < commentCount doc →
      scrapeTorrent now status body doc (Except.error e) = Except.error e) ∧
    (∀ now status body doc info,
      scrapeCore now status body doc = Except.ok (some info) →
      0 < commentCount doc →
      scrapeTorrent now status body doc (Except.ok (200, none)) =
        Except.error "comment feed body is not a raw-comment array") ∧
    (∀ now status body doc info st2 p,
      scrapeCore now status body doc = Except.ok (some info) →
      st2 ≠ 200 →
      scrapeTorrent now status body doc (Except.ok (st2, p)) =
        Except.ok (some { info with comments := [] })) := by
  refine ⟨?_, ?_, ?_⟩
  · intro now status body doc info e hcore hcnt
    have hsc : scrapeComments now (commentCount doc) (Except.error e) = Except.error e := by
      unfold scrapeComments
      rw [if_pos hcnt]
    unfold scrapeTorrent
    rw [hcore, hsc]
  · intro now status body doc info hcore hcnt
    have hsc : scrapeComments now (commentCount doc) (Except.ok (200, none)) =
        Except.error "comment feed body is not a raw-comment array" := by
      unfold scrapeComments
      rw [if_pos hcnt]
      rfl
    unfold scrapeTorrent
    rw [hcore, hsc]
  · intro now status body doc info st2 p hcore hne
    have hsc : scrapeComments now (commentCount doc) (Except.ok (st2, p)) = Except.ok [] := by
      unfold scrapeComments
      by_cases hcnt : 0 < commentCount doc
      · rw [if_pos hcnt]
        show (if st2 ≠ 200 then Except.ok [] else _) = Except.ok []
        rw [if_pos hne]
      · rw [if_neg hcnt]
    unfold scrapeTorrent
    rw [hcore, hsc]

/-- C10 witness: the three behaviours at the concrete good document (comment
count two): transport error aborts, unparseable body aborts, non-200 status
gives the record with no comments. -/
theorem C10_witness :
    (scrapeCore 1000000 200 "x" goodDoc = Except.ok (some itemGood) ∧
      0 < commentCount goodDoc ∧
      scrapeTorrent 1000000 200 "x" goodDoc (Except.error "boom") =
        Except.error "boom") ∧
    scrapeTorrent 1000000 200 "x" goodDoc (Except.ok (200, none)) =
      Except.error "comment feed body is not a raw-comment array" ∧
    scrapeTorrent 1000000 200 "x" goodDoc
        (Except.ok (404, some [⟨"a", none, "c", 1, "bad", none⟩])) =
      Except.ok (some itemGood) :=
  ⟨⟨by rfl, by decide,
      C10_theorem.1 1000000 200 "x" goodDoc itemGood "boom" (by rfl) (by decide)⟩,
    C10_theorem.2.1 1000000 200 "x" goodDoc itemGood (by rfl) (by decide),
    C10_theorem.2.2 1000000 200 "x" goodDoc itemGood 404
      (some [⟨"a", none, "c", 1, "bad", none⟩]) (by rfl) (by decide)⟩

/-! ## Checkpoint store (Stash, src/main.rs lines 375–424)

The filesystem is explicit state: an association list from chunk number to the
parsed content of that chunk's file.  The JSON encoding of a chunk map is an
external collaborator (the per-record encoding is settled by the serde model
above); reading a missing chunk file yields the empty map, as in the source's
unwrap_or_else. -/

/-- The in-memory chunk: BTreeMap<usize, Option<TorrentInfo>> as an
association list. -/
abbrev ChunkMap := List (Nat × Option TorrentInfo)

/-- BTreeMap::insert — replace the binding or append it. -/
def mapInsert (m : ChunkMap) (k : Nat) (v : Option TorrentInfo) : ChunkMap :=
  match m with
  | [] => [(k, v)]
  | (k2, v2) :: rest => if k2 = k then (k, v) :: rest else (k2, v2) :: mapInsert rest k v

/-- BTreeMap::contains_key. -/
def mapContains (m : ChunkMap) (k : Nat) : Bool := m.any (fun p => p.1 = k)

/-- The chunk files on disk. -/
abbrev FS := List (Nat × ChunkMap)

/-- Write (create or overwrite) one chunk file. -/
def fsWrite (fs : FS) (k : Nat) (m : ChunkMap) : FS :=
  match fs with
  | [] => [(k, m)]
  | (k2, m2) :: rest => if k2 = k then (k, m) :: rest else (k2, m2) :: fsWrite rest k m

/-- Read one chunk file, none when it does not exist. -/
def fsRead (fs : FS) (k : Nat) : Option ChunkMap :=
  match fs with
  | [] => none
  | (k2, m) :: rest => if k2 = k then some m else fsRead rest k

/-- Embedding of the Stash struct: the resident chunk's number and content. -/
structure Stash where
  loaded_chunk : Nat
  chunk : ChunkMap

/-- Stash::save — serialize the resident chunk map to its chunk file. -/
def Stash.save (s : Stash) (fs : FS) : FS := fsWrite fs s.loaded_chunk s.chunk

/-- Stash::load_chunk — save the resident chunk first, then load the requested
one (a missing file is the empty map). -/
def Stash.load_chunk (s : Stash) (fs : FS) (chunkId : Nat) : Stash × FS :=
  ⟨⟨chunkId, (fsRead (s.save fs) chunkId).getD []⟩, s.save fs⟩

/-- Stash::load_item_chunk — ensure the chunk owning item i (chunk i / 1000) is
resident. -/
def Stash.load_item_chunk (s : Stash) (fs : FS) (i : Nat) : Stash × FS :=
  if s.loaded_chunk ≠ i / 1000 then s.load_chunk fs (i / 1000) else (s, fs)

/-- Stash::insert — ensure residency, then insert into the resident chunk
(in memory only). -/
def Stash.insert (s : Stash) (fs : FS) (i : Nat) (info : Option TorrentInfo) :
    Stash × FS :=
  ⟨⟨(s.load_item_chunk fs i).1.loaded_chunk,
      mapInsert (s.load_item_chunk fs i).1.chunk i info⟩,
    (s.load_item_chunk fs i).2⟩

/-- Stash::contains_key — ensure residency, then report membership. -/
def Stash.contains_key (s : Stash) (fs : FS) (i : Nat) : Bool × Stash × FS :=
  ⟨mapContains (s.load_item_chunk fs i).1.chunk i, (s.load_item_chunk fs i).1,
    (s.load_item_chunk fs i).2⟩

/-- A written chunk file is read back as written. -/
theorem fsRead_fsWrite_self (fs : FS) (k : Nat) (m : ChunkMap) :
    fsRead (fsWrite fs k m) k = some m := by
  induction fs with
  | nil => simp [fsWrite, fsRead]
  | cons p rest ih =>
    rcases p with ⟨k2, m2⟩
    by_cases hp : k2 = k <;> simp [fsWrite, fsRead, hp, ih]

/-- The fresh store of the chunk-boundary scenario: chunk 0 resident and empty,
only chunk file 0 on disk (Stash::open requires it to exist). -/
def stash0 : Stash := ⟨0, []⟩

/-- The disk of the chunk-boundary scenario. -/
def fs0 : FS := [(0, [])]

/-- State after inserting ID 999 (a tombstone). -/
def c8Step1 : Stash × FS := stash0.insert fs0 999 none

/-- State after then inserting ID 1000. -/
def c8Step2 : Stash × FS := c8Step1.1.insert c8Step1.2 1000 none

/-- Disk after a final explicit flush. -/
def c8Flushed : FS := c8Step2.1.save c8Step2.2

/-- C8 counterexample: after inserting IDs 999 and 1000 the boundary crossing
persisted chunk file 0 (containing only 999), but no chunk file 1 exists yet —
ID 1000 lives only in memory until the next flush, so the two inserts alone do
NOT produce two persisted chunk files. -/
theorem C8_counterexample :
    fsRead c8Step2.2 0 = some [(999, none)] ∧ fsRead c8Step2.2 1 = none := by
  constructor
  · decide
  · decide

/-- C8 (amended): contains and put make the chunk owning the ID (number
id / 1000) resident; a residency switch — whether triggered by put or by a
pure-read contains — first writes the outgoing resident chunk's full mapping
to its own chunk file, so no mutation is lost across the switch; and the
999/1000 scenario yields two correctly partitioned chunk files once a flush
follows the second insert. -/
theorem C8_theorem :
    (∀ (s : Stash) (fs : FS) (i : Nat) (v : Option TorrentInfo),
      ((s.insert fs i v).1).loaded_chunk = i / 1000) ∧
    (∀ (s : Stash) (fs : FS) (i : Nat),
      ((s.contains_key fs i).2.1).loaded_chunk = i / 1000) ∧
    (∀ (s : Stash) (fs : FS) (i : Nat) (v : Option TorrentInfo),
      s.loaded_chunk ≠ i / 1000 →
      fsRead ((s.insert fs i v).2) s.loaded_chunk = some s.chunk) ∧
    (∀ (s : Stash) (fs : FS) (i : Nat),
      s.loaded_chunk ≠ i / 1000 →
      fsRead ((s.contains_key fs i).2.2) s.loaded_chunk = some s.chunk) ∧
    (fsRead c8Flushed 0 = some [(999, none)] ∧ fsRead c8Flushed 1 = some [(1000, none)]) := by
  refine ⟨?_, ?_, ?_, ?_, by decide, by decide⟩
  · intro s fs i v
    unfold Stash.insert Stash.load_item_chunk Stash.load_chunk
    by_cases hne : s.loaded_chunk ≠ i / 1000
    · rw [if_pos hne]
    · rw [if_neg hne]
      exact not_not.mp hne
  · intro s fs i
    unfold Stash.contains_key Stash.load_item_chunk Stash.load_chunk
    by_cases hne : s.loaded_chunk ≠ i / 1000
    · rw [if_pos hne]
    · rw [if_neg hne]
      exact not_not.mp hne
  · intro s fs i v hne
    unfold Stash.insert Stash.load_item_chunk Stash.load_chunk Stash.save
    rw [if_pos hne]
    exact fsRead_fsWrite_self fs s.loaded_chunk s.chunk
  · intro s fs i hne
    unfold Stash.contains_key Stash.load_item_chunk Stash.load_chunk Stash.save
    rw [if_pos hne]
    exact fsRead_fsWrite_self fs s.loaded_chunk s.chunk

/-- C8 witness: the flush-before-load conjuncts at the concrete boundary
crossing — inserting ID 1000, or merely asking contains(1000), while chunk 0
(holding 999) is resident persists chunk 0 first. -/
theorem C8_witness :
    ((c8Step1.1).loaded_chunk ≠ 1000 / 1000) ∧
    fsRead ((c8Step1.1.insert c8Step1.2 1000 none).2) (c8Step1.1).loaded_chunk =
      some (c8Step1.1).chunk ∧
    fsRead ((c8Step1.1.contains_key c8Step1.2 1000).2.2) (c8Step1.1).loaded_chunk =
      some (c8Step1.1).chunk :=
  ⟨by decide, C8_theorem.2.2.1 c8Step1.1 c8Step1.2 1000 none (by decide),
    C8_theorem.2.2.2.1 c8Step1.1 c8Step1.2 1000 (by decide)⟩

/-! ## Crawl Driver pacing (src/main.rs line 462) -/

/-- Pause requested after one crawl iteration, as a function of the
milliseconds the iteration's network activity took: the source sleeps a
constant 50 ms (`thread::sleep(Duration::from_millis(50))`), with no
subtraction of elapsed time. -/
def iterationPauseMs (elapsedNetworkMs : Nat) : Nat :=
  let _ := elapsedNetworkMs
  50

/-- C9 counterexample: the pause is NOT of the form "fixed minimum interval
minus time already spent, clamped at zero" — no interval makes the constant
50 ms sleep fit that shape (at elapsed = I + 1 the claimed pause is 0). -/
theorem C9_counterexample :
    ¬ ∃ I : Nat, ∀ e : Nat, iterationPauseMs e = I - e := by
  rintro ⟨I, h⟩
  have h1 := h (I + 1)
  simp only [iterationPauseMs] at h1
  omega

/-- C9 (amended): after every iteration the driver pauses a constant 50 ms,
independent of the time spent on the network call; consecutive iterations are
therefore at least 50 ms apart, bounding the request rate, though without
compensating for remote latency. -/
theorem C9_theorem :
    ∀ e : Nat, iterationPauseMs e = 50 ∧ 50 ≤ e + iterationPauseMs e := by
  intro e
  exact ⟨rfl, by simp [iterationPauseMs]⟩

example : parse_time_offset 1000 "0 seconds ago" = some 1000 := by decide
example : parse_time_offset 100 "1 secondss ago" = some 99 := by decide
example : parseRelTimeClaim 100 "1 secondss ago" = none := by decide
example : parse_time_offset 40000000 "1 year ago" = some (40000000 - 365 * 86400) := by decide
example : parse_time_offset 1000 "" = none := by decide
example : parse_time_offset 1000 "ago" = none := by decide
example : parse_time_offset 1000 "5 ago" = none := by decide
example : parse_time_offset 1000 "5 fortnights ago" = none := by decide

end Scraper
